import Mathlib

/-!
A verification development for the Vietnam coffee climate pipeline
(`scripts/01_inspect_and_standardise.py` … `scripts/05_visualise.py`).

Machine reals are modelled by `ℚ`; an IEEE NaN cell is modelled by `none`
in `Option ℚ`, with NaN-propagating arithmetic made explicit.
-/

namespace VietnamCoffee

/-- A grid value: `none` models an IEEE NaN cell, `some q` a finite value. -/
abbrev Val := Option ℚ

/-! ### Areal aggregation (src/scripts/02_areal_aggregation.py)

The grid carries 1-D latitude and longitude coordinate axes; a region's
geometry is abstracted as its point-containment test `geomContains lon lat`
(the source builds `Point(lon_grid[i, j], lat_grid[i, j])` and asks
`geom.contains(point)`). -/

/-- The spatial coordinate axes of the weather grid. -/
structure Grid where
  lats : List ℚ
  lons : List ℚ

/-- Sum of a per-cell quantity over the whole spatial grid
(`mask.sum()` / `.sum(axis=(1, 2))` at one time step). -/
def gridSum (g : Grid) (f : ℕ → ℕ → ℚ) : ℚ :=
  ∑ i in Finset.range g.lats.length, ∑ j in Finset.range g.lons.length, f i j

/-- The binary containment mask built by the double loop of
`create_weight_mask`: 1.0 where the cell-center point lies inside the
geometry, 0 elsewhere (and 0 outside the grid bounds, matching `np.zeros_like`). -/
def binMask (g : Grid) (geomContains : ℚ → ℚ → Bool) (i j : ℕ) : ℚ :=
  match g.lats[i]?, g.lons[j]? with
  | some la, some lo => if geomContains lo la then 1 else 0
  | _, _ => 0

/-- `create_weight_mask`: binary point-in-polygon mask, normalised to sum 1
when the sum is positive (`if mask.sum() > 0: mask = mask / mask.sum()`). -/
def create_weight_mask (g : Grid) (geomContains : ℚ → ℚ → Bool) : ℕ → ℕ → ℚ :=
  if gridSum g (binMask g geomContains) > 0 then
    fun i j => binMask g geomContains i j / gridSum g (binMask g geomContains)
  else binMask g geomContains

/-- Index of the coordinate nearest to `x` (first index on ties, with squared
distance as the measure), modelling `coords.sel(coords=x, method="nearest")`. -/
def nearestIdx (coords : List ℚ) (x : ℚ) : ℕ :=
  (List.range coords.length).foldl
    (fun best k =>
      if (coords.getD k 0 - x) ^ 2 < (coords.getD best 0 - x) ^ 2 then k else best) 0

/-- NaN-propagating product of a grid value with a (finite) weight:
`NaN * w = NaN`, including `w = 0` (IEEE `0 * NaN = NaN`). -/
def nmul (v : Val) (w : ℚ) : Val := v.map (fun a => a * w)

/-- NaN-propagating addition: a NaN operand makes the sum NaN. -/
def nadd : Val → Val → Val
  | some a, some b => some (a + b)
  | _, _ => none

/-- The grid cells in loop order. -/
def cells (g : Grid) : List (ℕ × ℕ) :=
  (List.range g.lats.length).flatMap fun i =>
    (List.range g.lons.length).map fun j => (i, j)

/-- NaN-propagating sum of a per-cell value over the whole spatial grid,
modelling numpy's unguarded `(data * weights).sum(axis=(1, 2))` at one
time step. -/
def ngridSum (g : Grid) (f : ℕ → ℕ → Val) : Val :=
  (cells g).foldl (fun acc ij => nadd acc (f ij.1 ij.2)) (some 0)

/-- The per-region body of `aggregate_to_regions`, for one variable: data is
indexed `(time, lat, lon)`; `centroid = (x, y) = (lon, lat)`. If the weight
mask sums to zero, fall back to the raw series of the grid cell nearest to
the centroid; otherwise take the weighted spatial sum at each time step. -/
def aggregate_to_regions (g : Grid) (geomContains : ℚ → ℚ → Bool)
    (centroid : ℚ × ℚ) (data : ℕ → ℕ → ℕ → Val) (t : ℕ) : Val :=
  let weights := create_weight_mask g geomContains
  if gridSum g weights = 0 then
    data t (nearestIdx g.lats centroid.2) (nearestIdx g.lons centroid.1)
  else
    ngridSum g (fun i j => nmul (data t i j) (weights i j))

/-! ### Index parameters (src/scripts/04_indices_and_anomalies.py) -/

/-- Base temperature for Growing Degree Days (coffee), `GDD_BASE = 10.0`. -/
def GDD_BASE : ℚ := 10

/-- Modelled from the spec: the GDD formula itself lives in the external
`tf_data_ml_utils.weather.stages.indices` package, which is not part of this
repository; the spec defines Growing Degree Days as
`max(temperature − base_threshold, 0)` per day. -/
def gdd (t : ℚ) : ℚ := max (t - GDD_BASE) 0

/-! ### Anomalies and z-scores (src/scripts/04_indices_and_anomalies.py,
`compute_anomalies`, lines 185–199).

`anom = actual - clim_mean`;
`std_safe = clim_std.where(clim_std > 0.001, 0.001)`;
`zscore = anom / std_safe`. -/

/-- `anom = actual - clim_mean`. -/
def anomaly (actual clim_mean : ℚ) : ℚ := actual - clim_mean

/-- `std_safe = clim_std.where(clim_std > 0.001, 0.001)`: keep the value where
the condition holds, otherwise replace by `0.001`. -/
def std_safe (clim_std : ℚ) : ℚ := if clim_std > 1/1000 then clim_std else 1/1000

/-- `zscore = anom / std_safe`. -/
def zscore (actual clim_mean clim_std : ℚ) : ℚ :=
  anomaly actual clim_mean / std_safe clim_std

/-! ### Climatology smoothing (src/scripts/03_climatology.py) -/

/-- Rolling window width for climatology smoothing
(`WINDOW_SIZE = 31  # Rolling window for smoothing (must be odd)`). -/
def WINDOW_SIZE : ℕ := 31

/-- Modelled from the spec: the smoothing implementation lives in the external
`tf_data_ml_utils` climatology stage, not in this repository. Per the spec it
is a rolling mean of fixed odd width `w` over the day-of-year axis (days
1–366, here the 0-based index `d = day − 1`) with circular wrap-around
padding, so every smoothed value is the mean of exactly `w` real wrapped
baseline days, never zero-padded. -/
def smoothClim (w : ℕ) (b : ℕ → ℚ) (d : ℕ) : ℚ :=
  (∑ k in Finset.range w, b ((d + 366 + k - w / 2) % 366)) / w

/-! ### Standardisation (src/scripts/01_inspect_and_standardise.py)

The standardisation step renames variables to canonical CF names and converts
units, guarded by sample-mean heuristics over the first time step. A dataset
carries its shared spatial axis sizes once; each variable is a
`(time, lat, lon)`-indexed array of possibly-NaN values. -/

/-- `VARIABLE_MAP`: ERA5 variable names → canonical CF names. -/
def VARIABLE_MAP : List (String × String) :=
  [("2m_temperature", "tas"),
   ("2m_temperature_max", "tasmax"),
   ("2m_temperature_min", "tasmin"),
   ("total_precipitation", "pr"),
   ("evaporation", "evspsbl"),
   ("volumetric_soil_water_layer_1", "swvl1"),
   ("volumetric_soil_water_layer_2", "swvl2"),
   ("volumetric_soil_water_layer_3", "swvl3"),
   ("volumetric_soil_water_layer_4", "swvl4")]

/-- A dataset: named variables over shared `(time, lat, lon)` axes. -/
structure Dataset where
  nLat : ℕ
  nLon : ℕ
  vars : List (String × (ℕ → ℕ → ℕ → Val))

/-- The canonical name of a variable (identity when unmapped). -/
def renameVar (n : String) : String :=
  match VARIABLE_MAP.find? (fun p => p.1 == n) with
  | some p => p.2
  | none => n

/-- `standardise_variable_names`: rename variables to CF canonical names. -/
def standardise_variable_names (ds : Dataset) : Dataset :=
  { ds with vars := ds.vars.map fun p => (renameVar p.1, p.2) }

/-- A variable's value at a cell, looked up by name (`none` when the variable
is absent or the cell is NaN). -/
def valAt (ds : Dataset) (n : String) (t i j : ℕ) : Val :=
  match ds.vars.find? (fun p => p.1 == n) with
  | some p => p.2 t i j
  | none => none

/-- `var in ds`. -/
def hasVar (ds : Dataset) (n : String) : Bool :=
  (ds.vars.find? (fun p => p.1 == n)).isSome

/-- The `k`-th variable's value at a cell (`none` when out of range). -/
def varAt (ds : Dataset) (k t i j : ℕ) : Val :=
  match ds.vars[k]? with
  | some p => p.2 t i j
  | none => none

/-- The spatial cells of the first time step, in loop order. -/
def sampleCells (ds : Dataset) : List (ℕ × ℕ) :=
  (List.range ds.nLat).flatMap fun i => (List.range ds.nLon).map fun j => (i, j)

/-- `float(ds[var].isel(time=0).mean())`: NaN-skipping mean over the first
time step's grid; NaN (`none`) when every cell is NaN, as in xarray. -/
def sampleMean (ds : Dataset) (v : ℕ → ℕ → ℕ → Val) : Val :=
  let l := (sampleCells ds).filterMap fun ij => v 0 ij.1 ij.2
  if l.length = 0 then none else some (l.sum / l.length)

/-- `sample_mean > c` with Python float semantics: `nan > c` is false. -/
def meanGT (m : Val) (c : ℚ) : Bool :=
  match m with
  | some q => decide (c < q)
  | none => false

/-- `sample_mean < c` with Python float semantics: `nan < c` is false. -/
def meanLT (m : Val) (c : ℚ) : Bool :=
  match m with
  | some q => decide (q < c)
  | none => false

/-- `abs(sample_mean) < c` with Python float semantics: false on `nan`. -/
def meanAbsLT (m : Val) (c : ℚ) : Bool :=
  match m with
  | some q => decide (|q| < c)
  | none => false

/-- `sample_mean < 0` with Python float semantics: false on `nan`. -/
def meanNeg (m : Val) : Bool :=
  match m with
  | some q => decide (q < 0)
  | none => false

/-- Replace variable `n`'s values by `f` applied pointwise. -/
def mapVar (ds : Dataset) (n : String) (f : Val → Val) : Dataset :=
  { ds with vars := ds.vars.map fun p =>
      if p.1 == n then (p.1, fun t i j => f (p.2 t i j)) else p }

/-- One temperature variable's pass of `convert_units`: subtract 273.15 when
the sample mean exceeds 100 (Kelvin detection); otherwise only attributes
change (a no-op on values). -/
def convertTemp (ds : Dataset) (n : String) : Dataset :=
  if hasVar ds n then
    if meanGT (sampleMean ds (valAt ds n)) 100 then
      mapVar ds n (Option.map fun q => q - 27315/100)
    else ds
  else ds

/-- Precipitation pass of `convert_units`: multiply by 1000 when the sample
mean is below 1 (metres detection). -/
def convertPr (ds : Dataset) : Dataset :=
  if hasVar ds "pr" then
    if meanLT (sampleMean ds (valAt ds "pr")) 1 then
      mapVar ds "pr" (Option.map fun q => q * 1000)
    else ds
  else ds

/-- Evaporation pass of `convert_units`: `-v * 1000` when `abs(mean) < 1`,
else a bare sign flip when the mean is negative. -/
def convertEvspsbl (ds : Dataset) : Dataset :=
  if hasVar ds "evspsbl" then
    if meanAbsLT (sampleMean ds (valAt ds "evspsbl")) 1 then
      mapVar ds "evspsbl" (Option.map fun q => -q * 1000)
    else if meanNeg (sampleMean ds (valAt ds "evspsbl")) then
      mapVar ds "evspsbl" (Option.map fun q => -q)
    else ds
  else ds

/-- `convert_units`: the three temperature passes, then precipitation, then
evaporation, in source order. -/
def convert_units (ds : Dataset) : Dataset :=
  convertEvspsbl (convertPr
    (convertTemp (convertTemp (convertTemp ds "tas") "tasmax") "tasmin"))

/-- The value-relevant part of the standardisation `main`:
`standardise_variable_names` then `convert_units` (`add_cf_attrs` only
touches metadata attributes, never values). -/
def standardise (ds : Dataset) : Dataset :=
  convert_units (standardise_variable_names ds)

/-- A raw dataset on a 1 × 2 grid: temperature is NaN in the second cell and
300 K in the first; precipitation is 0.0005 m everywhere. -/
def rawC7 : Dataset :=
  ⟨1, 2,
   [("2m_temperature", fun _ _ j => if j == 1 then none else some 300),
    ("total_precipitation", fun _ _ _ => some (1/2000))]⟩

/-- `rawC7` after variable renaming. -/
def rawC7renamed : Dataset :=
  ⟨1, 2,
   [("tas", fun _ _ j => if j == 1 then none else some 300),
    ("pr", fun _ _ _ => some (1/2000))]⟩

/-- `rawC7renamed` after the Kelvin-to-Celsius conversion of `tas`. -/
def rawC7tas : Dataset := mapVar rawC7renamed "tas" (Option.map fun q => q - 27315/100)

/-- `rawC7tas` after the metres-to-millimetres conversion of `pr`. -/
def rawC7pr : Dataset := mapVar rawC7tas "pr" (Option.map fun q => q * 1000)

/-! ### Visualisation control flow (src/scripts/05_visualise.py, `main`)

`main` always draws the coffee-regions map and the annual comparison; each
optional upstream artifact is guarded by a `Path.exists()` check whose else
branch prints a skip warning, and the trend parameters are only consulted
inside the climatology branch. -/

/-- Which optional upstream artifacts exist on disk. -/
structure VizInputs where
  raw_grid : Bool
  clim : Bool
  trend : Bool
  anomalies : Bool
  indices : Bool
  indices_full : Bool

/-- The observable events of one visualisation run: plots written, skip
warnings printed, the optional trend-parameter load, and the completion
banner. -/
inductive VizEvent where
  | plotCoffeeRegionsMap
  | plotGriddedWeatherMap
  | plotGriddedWeatherMapHighres
  | warnGriddedMapMissing
  | loadTrendParams
  | plotTimeSeriesWithClimatology
  | plotTimeSeriesMinimal
  | warnClimatologyMissing
  | plotMonthlyAnomalies
  | warnAnomaliesMissing
  | plotIndexDashboard
  | warnIndicesMissing
  | plotDayofyearIndices
  | warnIndicesFullMissing
  | plotAnnualComparison
  | completionBanner
deriving DecidableEq

/-- The event trace of `main` in src/scripts/05_visualise.py as a function of
which optional artifacts exist. -/
def visualise_main (inp : VizInputs) : List VizEvent :=
  [VizEvent.plotCoffeeRegionsMap]
  ++ (if inp.raw_grid then
        [VizEvent.plotGriddedWeatherMap, VizEvent.plotGriddedWeatherMapHighres]
      else [VizEvent.warnGriddedMapMissing])
  ++ (if inp.clim then
        (if inp.trend then [VizEvent.loadTrendParams] else [])
        ++ [VizEvent.plotTimeSeriesWithClimatology, VizEvent.plotTimeSeriesMinimal]
      else [VizEvent.warnClimatologyMissing])
  ++ (if inp.anomalies then [VizEvent.plotMonthlyAnomalies]
      else [VizEvent.warnAnomaliesMissing])
  ++ (if inp.indices then [VizEvent.plotIndexDashboard]
      else [VizEvent.warnIndicesMissing])
  ++ (if inp.indices_full then [VizEvent.plotDayofyearIndices]
      else [VizEvent.warnIndicesFullMissing])
  ++ [VizEvent.plotAnnualComparison, VizEvent.completionBanner]

/-! ### Helper lemmas about `ngridSum` and the grid sums -/

lemma nadd_none_right (v : Val) : nadd v none = none := by cases v <;> rfl

lemma nadd_none_left (v : Val) : nadd none v = none := by cases v <;> rfl

lemma foldl_nadd_of_none (F : ℕ × ℕ → Val) :
    ∀ l : List (ℕ × ℕ), l.foldl (fun acc x => nadd acc (F x)) none = none := by
  intro l
  induction l with
  | nil => rfl
  | cons a l ih => simp only [List.foldl_cons, nadd_none_left, ih]

lemma foldl_nadd_none (F : ℕ × ℕ → Val) (x : ℕ × ℕ) :
    ∀ (l : List (ℕ × ℕ)) (acc : Val), x ∈ l → F x = none →
      l.foldl (fun acc y => nadd acc (F y)) acc = none := by
  intro l
  induction l with
  | nil => intro acc h; simp at h
  | cons a l ih =>
    intro acc hx hF
    rcases List.mem_cons.1 hx with h | h
    · subst h
      simp only [List.foldl_cons, hF, nadd_none_right, foldl_nadd_of_none]
    · exact ih _ h hF

lemma foldl_nadd_some (F : ℕ × ℕ → Val) (G : ℕ × ℕ → ℚ) :
    ∀ (l : List (ℕ × ℕ)) (a : ℚ), (∀ x ∈ l, F x = some (G x)) →
      l.foldl (fun acc x => nadd acc (F x)) (some a) = some (a + (l.map G).sum) := by
  intro l
  induction l with
  | nil => intro a _; simp
  | cons x l ih =>
    intro a h
    have hx : F x = some (G x) := h x (List.mem_cons_self x l)
    have hstep : nadd (some a) (F x) = some (a + G x) := by rw [hx]; rfl
    rw [List.foldl_cons, hstep,
      ih (a + G x) (fun y hy => h y (List.mem_cons_of_mem x hy)),
      List.map_cons, List.sum_cons, add_assoc]

lemma sum_list_range (f : ℕ → ℚ) (n : ℕ) :
    ((List.range n).map f).sum = ∑ i in Finset.range n, f i := by
  induction n with
  | zero => simp
  | succ n ih =>
    rw [List.range_succ, List.map_append, List.sum_append, Finset.sum_range_succ, ih]
    simp

lemma sum_flatMap (h : ℕ → List ℚ) :
    ∀ l : List ℕ, (l.flatMap h).sum = (l.map fun i => (h i).sum).sum := by
  intro l
  induction l with
  | nil => rfl
  | cons a l ih => simp [List.flatMap_cons, ih]

lemma cells_map_sum (g : Grid) (G : ℕ × ℕ → ℚ) :
    ((cells g).map G).sum = gridSum g fun i j => G (i, j) := by
  unfold cells gridSum
  rw [List.map_flatMap, sum_flatMap]
  simp only [List.map_map]
  have hinner : ∀ i : ℕ,
      ((List.range g.lons.length).map (G ∘ fun j => (i, j))).sum
        = ∑ j in Finset.range g.lons.length, G (i, j) :=
    fun i => sum_list_range (fun j => G (i, j)) g.lons.length
  simp only [hinner]
  exact sum_list_range _ _

lemma mem_cells (g : Grid) (i j : ℕ) (hi : i < g.lats.length) (hj : j < g.lons.length) :
    (i, j) ∈ cells g := by
  unfold cells
  rw [List.mem_flatMap]
  exact ⟨i, List.mem_range.2 hi, List.mem_map.2 ⟨j, List.mem_range.2 hj, rfl⟩⟩

lemma binMask_zero_or_one (g : Grid) (gc : ℚ → ℚ → Bool) (i j : ℕ) :
    binMask g gc i j = 0 ∨ binMask g gc i j = 1 := by
  unfold binMask
  cases hla : g.lats[i]? with
  | none => left; simp
  | some la =>
    cases hlo : g.lons[j]? with
    | none => left; simp
    | some lo =>
      by_cases h : gc lo la
      · right; simp [h]
      · left; simp [h]

lemma binMask_nonneg (g : Grid) (gc : ℚ → ℚ → Bool) (i j : ℕ) :
    0 ≤ binMask g gc i j := by
  rcases binMask_zero_or_one g gc i j with h | h <;> simp [h]

/-! ### Theorems for C1, C2, C3, C10 -/

/-- C1: for every region whose binary point-in-polygon containment mask has at
least one nonzero cell, the weight mask returned by `create_weight_mask` sums
to exactly 1 (hence to 1.0 within floating-point tolerance). -/
theorem weight_mask_normalised (g : Grid) (gc : ℚ → ℚ → Bool)
    (h : ∃ i j, i < g.lats.length ∧ j < g.lons.length ∧ binMask g gc i j ≠ 0) :
    gridSum g (create_weight_mask g gc) = 1 := by
  obtain ⟨i, j, hi, hj, hne⟩ := h
  have hone : binMask g gc i j = 1 := (binMask_zero_or_one g gc i j).resolve_left hne
  have hs1 : 1 ≤ gridSum g (binMask g gc) := by
    have hinner : 1 ≤ ∑ b in Finset.range g.lons.length, binMask g gc i b := by
      calc 1 = binMask g gc i j := hone.symm
        _ ≤ _ := Finset.single_le_sum (fun b _ => binMask_nonneg g gc i b)
            (Finset.mem_range.2 hj)
    calc 1 ≤ ∑ b in Finset.range g.lons.length, binMask g gc i b := hinner
      _ ≤ gridSum g (binMask g gc) :=
        Finset.single_le_sum
          (fun a _ => Finset.sum_nonneg fun b _ => binMask_nonneg g gc a b)
          (Finset.mem_range.2 hi)
  have hspos : (0 : ℚ) < gridSum g (binMask g gc) := lt_of_lt_of_le one_pos hs1
  unfold create_weight_mask
  rw [if_pos hspos]
  show ∑ a in Finset.range g.lats.length, ∑ b in Finset.range g.lons.length,
      binMask g gc a b / gridSum g (binMask g gc) = 1
  have hdiv : ∀ a : ℕ, ∑ b in Finset.range g.lons.length,
      binMask g gc a b / gridSum g (binMask g gc)
      = (∑ b in Finset.range g.lons.length, binMask g gc a b) / gridSum g (binMask g gc) :=
    fun a => (Finset.sum_div _ _ _).symm
  simp only [hdiv]
  rw [← Finset.sum_div]
  exact div_self (ne_of_gt hspos)

/-- Witness for C1: a 2 × 2 grid with a geometry containing only the top-left
cell center has a weight mask summing to exactly 1. -/
theorem weight_mask_normalised_witness :
    gridSum ⟨[0, 1], [0, 1]⟩ (create_weight_mask ⟨[0, 1], [0, 1]⟩
      (fun lo la => lo == 0 && la == 0)) = 1 :=
  weight_mask_normalised ⟨[0, 1], [0, 1]⟩ (fun lo la => lo == 0 && la == 0)
    ⟨0, 0, by norm_num, by norm_num, by norm_num [binMask]⟩

lemma binMask_eq_zero_of_no_contain (g : Grid) (gc : ℚ → ℚ → Bool)
    (h : ∀ la ∈ g.lats, ∀ lo ∈ g.lons, gc lo la = false) (i j : ℕ) :
    binMask g gc i j = 0 := by
  unfold binMask
  cases hla : g.lats[i]? with
  | none => simp
  | some la =>
    cases hlo : g.lons[j]? with
    | none => simp
    | some lo =>
      have hmla : la ∈ g.lats := List.getElem?_mem hla
      have hmlo : lo ∈ g.lons := List.getElem?_mem hlo
      simp [h la hmla lo hmlo]

/-- C2: for a region none of whose grid-cell centers lie inside the geometry
(the weight mask sums to zero), `aggregate_to_regions` is totally defined
(never an error) and, at every time step and for every variable's data array, returns
exactly the raw value of the grid cell nearest to the region's centroid, with
no weighting applied. -/
theorem aggregate_fallback (g : Grid) (gc : ℚ → ℚ → Bool) (c : ℚ × ℚ)
    (data : ℕ → ℕ → ℕ → Val) (t : ℕ)
    (h : ∀ la ∈ g.lats, ∀ lo ∈ g.lons, gc lo la = false) :
    aggregate_to_regions g gc c data t
      = data t (nearestIdx g.lats c.2) (nearestIdx g.lons c.1) := by
  have hmask : ∀ i j, binMask g gc i j = 0 := binMask_eq_zero_of_no_contain g gc h
  have hsum : gridSum g (binMask g gc) = 0 := by
    unfold gridSum
    exact Finset.sum_eq_zero fun a _ => Finset.sum_eq_zero fun b _ => hmask a b
  have hw : create_weight_mask g gc = binMask g gc := by
    unfold create_weight_mask
    rw [hsum]
    simp
  have hwsum : gridSum g (create_weight_mask g gc) = 0 := by rw [hw]; exact hsum
  unfold aggregate_to_regions
  rw [if_pos hwsum]

/-- Witness for C2: on a 2 × 2 grid with an empty containment test and
centroid (x, y) = (3/4, 1/4), the aggregate at time 5 is the raw value of the
nearest cell (lat index 0, lon index 1). -/
theorem aggregate_fallback_witness :
    aggregate_to_regions ⟨[0, 1], [0, 1]⟩ (fun _ _ => false) (3/4, 1/4)
      (fun t i j => some (100 * t + 10 * i + j)) 5 = some 501 := by
  rw [aggregate_fallback ⟨[0, 1], [0, 1]⟩ (fun _ _ => false) (3/4, 1/4)
    (fun t i j => some (100 * t + 10 * i + j)) 5 (fun la _ lo _ => rfl)]
  norm_num [nearestIdx, List.range_succ]

/-- C3: for a region with a nonzero weight mask and all-finite data at time
`t`, the aggregated value is the sum over all grid cells of the grid value
times the cell's weight (the two spatial dimensions reduced to one scalar). -/
theorem aggregate_weighted_sum (g : Grid) (gc : ℚ → ℚ → Bool) (c : ℚ × ℚ)
    (data : ℕ → ℕ → ℕ → Val) (d : ℕ → ℕ → ℕ → ℚ) (t : ℕ)
    (hW : gridSum g (create_weight_mask g gc) ≠ 0)
    (hfin : ∀ i j, data t i j = some (d t i j)) :
    aggregate_to_regions g gc c data t
      = some (gridSum g fun i j => d t i j * create_weight_mask g gc i j) := by
  unfold aggregate_to_regions
  rw [if_neg hW]
  unfold ngridSum
  rw [foldl_nadd_some
    (fun ij => nmul (data t ij.1 ij.2) (create_weight_mask g gc ij.1 ij.2))
    (fun ij => d t ij.1 ij.2 * create_weight_mask g gc ij.1 ij.2)
    (cells g) 0
    (fun x _ => by simp [hfin x.1 x.2, nmul])]
  rw [cells_map_sum g fun ij => d t ij.1 ij.2 * create_weight_mask g gc ij.1 ij.2]
  rw [zero_add]

/-- Witness for C3 (the spec's end-to-end scenario): a 2 × 2 grid holding
`[[20, 22], [24, 26]]` on day 0 and a region whose mask puts weight 1.0 on the
top-left cell aggregates to exactly 20; with GDD base 10 °C the GDD of that
value is exactly 10. -/
theorem aggregate_weighted_sum_witness :
    aggregate_to_regions ⟨[0, 1], [0, 1]⟩ (fun lo la => lo == 0 && la == 0) (0, 0)
      (fun _ i j => some (20 + 2 * (2 * i + j))) 0 = some 20 ∧ gdd 20 = 10 :=
  ⟨(aggregate_weighted_sum ⟨[0, 1], [0, 1]⟩ (fun lo la => lo == 0 && la == 0) (0, 0)
      (fun _ i j => some (20 + 2 * (2 * i + j)))
      (fun _ i j => 20 + 2 * (2 * i + j)) 0
      (by norm_num [create_weight_mask, gridSum, binMask, Finset.sum_range_succ])
      (fun _ _ => rfl)).trans
    (by norm_num [create_weight_mask, gridSum, binMask, Finset.sum_range_succ]),
   by norm_num [gdd, GDD_BASE, max_def]⟩

/-- C10: in the weighted branch (nonzero weight mask), the spatial sum runs
over the entire grid, so the aggregate is NaN (`none`) whenever any grid cell
anywhere is NaN at that time — including cells of weight zero, since
`0 * NaN = NaN` propagates through the unguarded sum. -/
theorem aggregate_nan_propagation (g : Grid) (gc : ℚ → ℚ → Bool) (c : ℚ × ℚ)
    (data : ℕ → ℕ → ℕ → Val) (t i j : ℕ)
    (hW : gridSum g (create_weight_mask g gc) ≠ 0)
    (hi : i < g.lats.length) (hj : j < g.lons.length)
    (hnan : data t i j = none) :
    aggregate_to_regions g gc c data t = none := by
  unfold aggregate_to_regions
  rw [if_neg hW]
  unfold ngridSum
  exact foldl_nadd_none
    (fun ij => nmul (data t ij.1 ij.2) (create_weight_mask g gc ij.1 ij.2))
    (i, j) (cells g) (some 0) (mem_cells g i j hi hj)
    (by simp [hnan, nmul])

/-- Witness for C10: on the 2 × 2 grid with all weight on the top-left cell,
a NaN at the zero-weight cell (1, 1) — whose weight is 0 — still makes the
aggregated day-0 value NaN. -/
theorem aggregate_nan_propagation_witness :
    create_weight_mask ⟨[0, 1], [0, 1]⟩ (fun lo la => lo == 0 && la == 0) 1 1 = 0 ∧
    aggregate_to_regions ⟨[0, 1], [0, 1]⟩ (fun lo la => lo == 0 && la == 0) (0, 0)
      (fun _ i j => if i == 1 && j == 1 then none else some 20) 0 = none :=
  ⟨by norm_num [create_weight_mask, gridSum, binMask, Finset.sum_range_succ],
   aggregate_nan_propagation ⟨[0, 1], [0, 1]⟩ (fun lo la => lo == 0 && la == 0) (0, 0)
     (fun _ i j => if i == 1 && j == 1 then none else some 20) 0 1 1
     (by norm_num [create_weight_mask, gridSum, binMask, Finset.sum_range_succ])
     (by norm_num) (by norm_num) rfl⟩

/-! ### Theorems for C4, C5, C6 -/

/-- C4: for every daily temperature value, `gdd t = max (t - GDD_BASE) 0`:
GDD is never negative, equals `0` whenever `t ≤ GDD_BASE` (10 °C), and equals
`t - GDD_BASE` otherwise. -/
theorem gdd_monotonic_floor (t : ℚ) :
    0 ≤ gdd t ∧ (t ≤ GDD_BASE → gdd t = 0) ∧ (GDD_BASE < t → gdd t = t - GDD_BASE) := by
  refine ⟨le_max_right _ _, fun h => ?_, fun h => ?_⟩
  · exact max_eq_right (by linarith)
  · exact max_eq_left (by linarith)

/-- Witness for C4: the three clauses of `gdd_monotonic_floor` at the concrete
temperatures 5 °C and 12 °C. -/
theorem gdd_monotonic_floor_witness :
    0 ≤ gdd 5 ∧ gdd 5 = 0 ∧ gdd 12 = 12 - GDD_BASE :=
  ⟨(gdd_monotonic_floor 5).1,
   (gdd_monotonic_floor 5).2.1 (by norm_num [GDD_BASE]),
   (gdd_monotonic_floor 12).2.2 (by norm_num [GDD_BASE])⟩

/-- C5: for every actual value, climatological mean and climatological std,
the anomaly is `actual − mean`, the z-score is that anomaly divided by
`max std 0.001`, and the divisor `std_safe` is never below the epsilon floor
`0.001`. -/
theorem anomaly_zscore_epsilon_floor (a m s : ℚ) :
    anomaly a m = a - m ∧
    zscore a m s = (a - m) / max s (1/1000) ∧
    1/1000 ≤ std_safe s := by
  refine ⟨rfl, ?_, ?_⟩
  · unfold zscore anomaly std_safe
    by_cases h : s > 1/1000
    · rw [if_pos h, max_eq_left (le_of_lt h)]
    · rw [if_neg h, max_eq_right (le_of_not_lt h)]
  · unfold std_safe
    by_cases h : s > 1/1000
    · rw [if_pos h]; exact le_of_lt h
    · rw [if_neg h]

/-- C6: for a date whose actual value exactly equals the climatological mean,
with the climatological std above the epsilon floor, the anomaly is 0 and the
z-score is 0. -/
theorem anomaly_roundtrip (a m s : ℚ) (heq : a = m) (hs : 1/1000 < s) :
    anomaly a m = 0 ∧ zscore a m s = 0 := by
  constructor
  · simp [anomaly, heq]
  · have hsafe : std_safe s = s := if_pos hs
    simp [zscore, anomaly, heq, hsafe]

/-- Witness for C6: `anomaly_roundtrip` at actual = mean = 20, std = 1. -/
theorem anomaly_roundtrip_witness :
    anomaly 20 20 = 0 ∧ zscore 20 20 1 = 0 :=
  anomaly_roundtrip 20 20 1 rfl (by norm_num)

/-- Counterexample for C8: window width 11 is odd and at least 10, yet two
baselines differing exactly at day-of-year 360 (index 359) smooth to the same
day-1 (index 0) value — day 360 is 7 days before day 1, outside the
half-width-5 window, so "changes the output whenever the window is at least
10 wide" fails. -/
theorem smoothClim_day360_window10_counterexample :
    10 ≤ 11 ∧ Odd 11 ∧
    (fun d : ℕ => if d = 359 then (100 : ℚ) else 0) 359 ≠ (fun _ : ℕ => (0 : ℚ)) 359 ∧
    smoothClim 11 (fun d => if d = 359 then (100 : ℚ) else 0) 0
      = smoothClim 11 (fun _ => (0 : ℚ)) 0 := by
  refine ⟨by norm_num, ⟨5, by norm_num⟩, by norm_num, ?_⟩
  norm_num [smoothClim, Finset.sum_range_succ]

/-- C8 amended: the configured window width 31 is odd, and — circular
wrap-around reaching day 360, which sits 7 days before day 1 — changing the
baseline at day-of-year 360 (index 359) by any nonzero amount changes the
smoothed day-1 (index 0) output. (This holds for any half-width of at least
7, i.e. odd windows of width at least 15, rather than the claimed 10.) -/
theorem smoothClim_day360_reaches_day1 (b : ℕ → ℚ) (x : ℚ) (hx : x ≠ 0) :
    Odd WINDOW_SIZE ∧
    smoothClim WINDOW_SIZE (fun d => if d = 359 then b d + x else b d) 0
      ≠ smoothClim WINDOW_SIZE b 0 := by
  refine ⟨⟨15, by norm_num [WINDOW_SIZE]⟩, ?_⟩
  simp only [WINDOW_SIZE]
  have hsplit : ∀ c : ℕ → ℚ,
      ∑ k in Finset.range 31, c ((0 + 366 + k - 31 / 2) % 366)
        = c 359 + ∑ k in (Finset.range 31).erase 8, c ((0 + 366 + k - 31 / 2) % 366) := by
    intro c
    rw [← Finset.add_sum_erase (Finset.range 31)
      (fun k => c ((0 + 366 + k - 31 / 2) % 366)) (show (8 : ℕ) ∈ Finset.range 31 by norm_num)]
  have herase :
      (∑ k in (Finset.range 31).erase 8,
        if (0 + 366 + k - 31 / 2) % 366 = 359 then b ((0 + 366 + k - 31 / 2) % 366) + x
        else b ((0 + 366 + k - 31 / 2) % 366))
        = ∑ k in (Finset.range 31).erase 8, b ((0 + 366 + k - 31 / 2) % 366) := by
    apply Finset.sum_congr rfl
    intro k hk
    have hk31 : k < 31 := Finset.mem_range.1 (Finset.mem_of_mem_erase hk)
    have hk8 : k ≠ 8 := Finset.ne_of_mem_erase hk
    have hne : (0 + 366 + k - 31 / 2) % 366 ≠ 359 := by omega
    simp only [if_neg hne]
  intro heq
  rw [smoothClim, smoothClim,
    hsplit (fun d => if d = 359 then b d + x else b d), hsplit b, herase] at heq
  have h359 : (if (359 : ℕ) = 359 then b 359 + x else b 359) = b 359 + x := if_pos rfl
  rw [h359, div_eq_div_iff (by norm_num) (by norm_num)] at heq
  apply hx
  linarith

/-- Witness for the amended C8: with the all-zero baseline and a bump of 1 at
day 360, the smoothed day-1 values differ for the configured window 31. -/
theorem smoothClim_day360_reaches_day1_witness :
    Odd WINDOW_SIZE ∧
    smoothClim WINDOW_SIZE (fun d => if d = 359 then (0 : ℚ) + 1 else 0) 0
      ≠ smoothClim WINDOW_SIZE (fun _ : ℕ => (0 : ℚ)) 0 :=
  smoothClim_day360_reaches_day1 (fun _ => (0 : ℚ)) 1 one_ne_zero

/-! ### Theorems for C7 -/

lemma varAt_mapVar_none_iff (ds : Dataset) (n : String) (g : ℚ → ℚ) (k t i j : ℕ) :
    varAt (mapVar ds n (Option.map g)) k t i j = none ↔ varAt ds k t i j = none := by
  unfold varAt mapVar
  simp only [List.getElem?_map]
  cases hp : ds.vars[k]? with
  | none => simp
  | some p =>
    simp only [Option.map_some']
    by_cases hb : p.1 == n
    · simp [hb, Option.map_eq_none']
    · simp [hb]

lemma varAt_rename_none_iff (ds : Dataset) (k t i j : ℕ) :
    varAt (standardise_variable_names ds) k t i j = none ↔ varAt ds k t i j = none := by
  unfold varAt standardise_variable_names
  simp only [List.getElem?_map]
  cases hp : ds.vars[k]? with
  | none => simp
  | some p => simp

lemma varAt_convertTemp_none_iff (ds : Dataset) (n : String) (k t i j : ℕ) :
    varAt (convertTemp ds n) k t i j = none ↔ varAt ds k t i j = none := by
  unfold convertTemp
  split_ifs with h1 h2
  · exact varAt_mapVar_none_iff ds n _ k t i j
  · exact Iff.rfl
  · exact Iff.rfl

lemma varAt_convertPr_none_iff (ds : Dataset) (k t i j : ℕ) :
    varAt (convertPr ds) k t i j = none ↔ varAt ds k t i j = none := by
  unfold convertPr
  split_ifs with h1 h2
  · exact varAt_mapVar_none_iff ds "pr" _ k t i j
  · exact Iff.rfl
  · exact Iff.rfl

lemma varAt_convertEvspsbl_none_iff (ds : Dataset) (k t i j : ℕ) :
    varAt (convertEvspsbl ds) k t i j = none ↔ varAt ds k t i j = none := by
  unfold convertEvspsbl
  split_ifs with h1 h2 h3
  · exact varAt_mapVar_none_iff ds "evspsbl" _ k t i j
  · exact varAt_mapVar_none_iff ds "evspsbl" _ k t i j
  · exact Iff.rfl
  · exact Iff.rfl

lemma nLat_nLon_convertTemp (ds : Dataset) (n : String) :
    (convertTemp ds n).nLat = ds.nLat ∧ (convertTemp ds n).nLon = ds.nLon := by
  unfold convertTemp
  split_ifs <;> exact ⟨rfl, rfl⟩

lemma nLat_nLon_convertPr (ds : Dataset) :
    (convertPr ds).nLat = ds.nLat ∧ (convertPr ds).nLon = ds.nLon := by
  unfold convertPr
  split_ifs <;> exact ⟨rfl, rfl⟩

lemma nLat_nLon_convertEvspsbl (ds : Dataset) :
    (convertEvspsbl ds).nLat = ds.nLat ∧ (convertEvspsbl ds).nLon = ds.nLon := by
  unfold convertEvspsbl
  split_ifs <;> exact ⟨rfl, rfl⟩

/-- C7 amended: standardisation renames variables and converts units but
leaves the shared axis sizes untouched and never changes where the NaNs are:
for every variable position and every cell, the standardised value is NaN
exactly where the raw value was. In particular no reference variable's NaN
mask is propagated onto the other variables (no such propagation step
exists in the code). -/
theorem standardise_preserves_nan_masks (ds : Dataset) (k t i j : ℕ) :
    (standardise ds).nLat = ds.nLat ∧ (standardise ds).nLon = ds.nLon ∧
    (varAt (standardise ds) k t i j = none ↔ varAt ds k t i j = none) := by
  unfold standardise convert_units
  refine ⟨?_, ?_, ?_⟩
  · rw [(nLat_nLon_convertEvspsbl _).1, (nLat_nLon_convertPr _).1,
      (nLat_nLon_convertTemp _ _).1, (nLat_nLon_convertTemp _ _).1,
      (nLat_nLon_convertTemp _ _).1]
    rfl
  · rw [(nLat_nLon_convertEvspsbl _).2, (nLat_nLon_convertPr _).2,
      (nLat_nLon_convertTemp _ _).2, (nLat_nLon_convertTemp _ _).2,
      (nLat_nLon_convertTemp _ _).2]
    rfl
  · exact (varAt_convertEvspsbl_none_iff _ k t i j).trans
      ((varAt_convertPr_none_iff _ k t i j).trans
        ((varAt_convertTemp_none_iff _ _ k t i j).trans
          ((varAt_convertTemp_none_iff _ _ k t i j).trans
            ((varAt_convertTemp_none_iff _ _ k t i j).trans
              (varAt_rename_none_iff ds k t i j)))))

/-- Counterexample for C7: after the standardisation step on `rawC7`, the
reference variable `tas` is NaN at cell (time 0, lat 0, lon 1) while `pr` is
0.5 mm there — no NaN mask is propagated across variables. -/
theorem standardise_no_nan_propagation_counterexample :
    valAt (standardise rawC7) "tas" 0 0 1 = none ∧
    valAt (standardise rawC7) "pr" 0 0 1 = some (1/2) := by
  have h1 : renameVar "2m_temperature" = "tas" := by decide
  have h2 : renameVar "total_precipitation" = "pr" := by decide
  have hren : standardise_variable_names rawC7 = rawC7renamed := by
    unfold standardise_variable_names rawC7 rawC7renamed
    simp [h1, h2]
  have hv1 : valAt rawC7renamed "tas" = fun _ _ j => if j == 1 then none else some 300 := rfl
  have hmean1 : sampleMean rawC7renamed (valAt rawC7renamed "tas") = some 300 := by
    rw [hv1]
    norm_num [sampleMean, sampleCells, rawC7renamed, List.range_succ,
      List.filterMap_cons, List.filterMap_nil]
  have hct1 : convertTemp rawC7renamed "tas" = rawC7tas := by
    have hhv : hasVar rawC7renamed "tas" = true := rfl
    have hmgt : meanGT (some (300 : ℚ)) 100 = true := by norm_num [meanGT]
    unfold convertTemp rawC7tas
    rw [hmean1, hhv, hmgt]
    simp
  have hct2 : convertTemp rawC7tas "tasmax" = rawC7tas := by
    have hhv : hasVar rawC7tas "tasmax" = false := rfl
    unfold convertTemp
    rw [hhv]
    simp
  have hct3 : convertTemp rawC7tas "tasmin" = rawC7tas := by
    have hhv : hasVar rawC7tas "tasmin" = false := rfl
    unfold convertTemp
    rw [hhv]
    simp
  have hv2 : valAt rawC7tas "pr" = fun _ _ _ => some (1/2000 : ℚ) := rfl
  have hmean2 : sampleMean rawC7tas (valAt rawC7tas "pr") = some (1/2000) := by
    rw [hv2]
    norm_num [sampleMean, sampleCells, rawC7tas, rawC7renamed, mapVar, List.range_succ,
      List.filterMap_cons, List.filterMap_nil]
  have hcp : convertPr rawC7tas = rawC7pr := by
    have hhv : hasVar rawC7tas "pr" = true := rfl
    have hmlt : meanLT (some ((1 : ℚ)/2000)) 1 = true := by norm_num [meanLT]
    unfold convertPr rawC7pr
    rw [hmean2, hhv, hmlt]
    simp
  have hce : convertEvspsbl rawC7pr = rawC7pr := by
    have hhv : hasVar rawC7pr "evspsbl" = false := rfl
    unfold convertEvspsbl
    rw [hhv]
    simp
  have hstd : standardise rawC7 = rawC7pr := by
    unfold standardise convert_units
    rw [hren, hct1, hct2, hct3, hcp, hce]
  rw [hstd]
  constructor
  · rfl
  · have : valAt rawC7pr "pr" 0 0 1 = some ((1 : ℚ)/2000 * 1000) := rfl
    rw [this]
    norm_num

/-- C9: for every combination of present and absent optional inputs, the
visualisation run completes (its trace ends with the completion banner);
each optional step runs exactly when its artifact is present, a skip warning
is printed exactly when it is absent, and the trend-dependent retrending
step runs only when both the climatology and the trend parameters exist. -/
theorem visualise_main_degrades_gracefully :
    ∀ rg cl tr an ix ixf : Bool,
      (visualise_main ⟨rg, cl, tr, an, ix, ixf⟩).getLast?
          = some VizEvent.completionBanner ∧
      (VizEvent.plotGriddedWeatherMap ∈ visualise_main ⟨rg, cl, tr, an, ix, ixf⟩
          ↔ rg = true) ∧
      (VizEvent.warnGriddedMapMissing ∈ visualise_main ⟨rg, cl, tr, an, ix, ixf⟩
          ↔ rg = false) ∧
      (VizEvent.plotTimeSeriesWithClimatology ∈ visualise_main ⟨rg, cl, tr, an, ix, ixf⟩
          ↔ cl = true) ∧
      (VizEvent.warnClimatologyMissing ∈ visualise_main ⟨rg, cl, tr, an, ix, ixf⟩
          ↔ cl = false) ∧
      (VizEvent.loadTrendParams ∈ visualise_main ⟨rg, cl, tr, an, ix, ixf⟩
          ↔ (cl && tr) = true) ∧
      (VizEvent.plotMonthlyAnomalies ∈ visualise_main ⟨rg, cl, tr, an, ix, ixf⟩
          ↔ an = true) ∧
      (VizEvent.warnAnomaliesMissing ∈ visualise_main ⟨rg, cl, tr, an, ix, ixf⟩
          ↔ an = false) ∧
      (VizEvent.plotIndexDashboard ∈ visualise_main ⟨rg, cl, tr, an, ix, ixf⟩
          ↔ ix = true) ∧
      (VizEvent.warnIndicesMissing ∈ visualise_main ⟨rg, cl, tr, an, ix, ixf⟩
          ↔ ix = false) ∧
      (VizEvent.plotDayofyearIndices ∈ visualise_main ⟨rg, cl, tr, an, ix, ixf⟩
          ↔ ixf = true) ∧
      (VizEvent.warnIndicesFullMissing ∈ visualise_main ⟨rg, cl, tr, an, ix, ixf⟩
          ↔ ixf = false) := by
  decide

end VietnamCoffee
